import Mathlib

/-!
Shallow embedding of the data-fetching demo application: a PostgreSQL blog
schema (`users`, `posts`) accessed through drizzle-orm, page-level read
queries for the SSG / ISR / SSR variants, a seed script, and the
`POST /api/revalidate` route.  Database rows are modelled as Lean
structures, tables as lists of rows, and each drizzle query as a pure
function on the database state.  Timestamps (`timestamptz`) are modelled
as natural numbers, uuid columns as strings.
-/

namespace DataFetching

/-- A row of the `users` table (src/drizzle/schema/user.ts and the
migration `0000_powerful_sunspot.sql`): uuid primary key with default,
createdAt/updatedAt timestamps, name, unique email, password_hash. -/
structure User where
  id : String
  createdAt : Nat
  updatedAt : Nat
  name : String
  email : String
  passwordHash : String
deriving DecidableEq, Repr

/-- A row of the `posts` table (src/drizzle/schema/post.ts): uuid primary
key, timestamps, `user_id` foreign key referencing `users.id`, title,
content, and the integer `published` flag (0 = false, 1 = true,
default 0). -/
structure Post where
  id : String
  createdAt : Nat
  updatedAt : Nat
  userId : String
  title : String
  content : String
  published : Nat
deriving DecidableEq, Repr

/-- The database state: the two tables, each a list of rows in physical
order. -/
structure DbState where
  users : List User
  posts : List Post
deriving DecidableEq, Repr

/-- The projected row shape selected by every page query:
`{ id, title, content, createdAt, userId }`. -/
structure PostRow where
  id : String
  title : String
  content : String
  createdAt : Nat
  userId : String
deriving DecidableEq, Repr

/-- The column projection used in each page's `db.select({...})`. -/
def selectPostRow (p : Post) : PostRow :=
  { id := p.id, title := p.title, content := p.content,
    createdAt := p.createdAt, userId := p.userId }

/-- The comparison used by `.orderBy(posts.createdAt)` (ascending). -/
def createdAtLe (a b : Post) : Prop :=
  a.createdAt ≤ b.createdAt

instance : DecidableRel createdAtLe := fun a b =>
  inferInstanceAs (Decidable (a.createdAt ≤ b.createdAt))

instance : IsTotal Post createdAtLe :=
  ⟨fun a b => Nat.le_total a.createdAt b.createdAt⟩

instance : IsTrans Post createdAtLe :=
  ⟨fun _ _ _ h1 h2 => Nat.le_trans h1 h2⟩

/-- Ordering of the projected rows by `createdAt` ascending. -/
def rowCreatedAtLe (a b : PostRow) : Prop :=
  a.createdAt ≤ b.createdAt

/-- The query of `SSGPostsPage` (src/app/ssg/posts/page.tsx):
`select({id,title,content,createdAt,userId}).from(posts)
 .where(eq(posts.published, 1)).orderBy(posts.createdAt)`. -/
def ssgPostsQuery (st : DbState) : List PostRow :=
  (((st.posts.filter fun p => p.published == 1).insertionSort
      createdAtLe).map selectPostRow)

/-- The query of `ISRPostsPage` (src/app/isr/posts/page.tsx), identical
text to the SSG one. -/
def isrPostsQuery (st : DbState) : List PostRow :=
  (((st.posts.filter fun p => p.published == 1).insertionSort
      createdAtLe).map selectPostRow)

/-- The query of `SSRPostsPage` (src/app/ssr/posts/page.tsx), identical
text to the SSG one. -/
def ssrPostsQuery (st : DbState) : List PostRow :=
  (((st.posts.filter fun p => p.published == 1).insertionSort
      createdAtLe).map selectPostRow)

/-- Caching directive of the SSG list page: `export const dynamic =
"force-static"`. -/
def ssgDynamic : String := "force-static"

/-- Caching directive of the ISR list page: `export const revalidate =
60`. -/
def isrRevalidate : Nat := 60

/-- Caching directive of the SSR list page: `export const dynamic =
"force-dynamic"`. -/
def ssrDynamic : String := "force-dynamic"

/-- Outcome of rendering a detail page: either the page with the fetched
row, or the framework's `notFound()` outcome. -/
inductive PageResult where
  | rendered (post : PostRow)
  | notFoundPage
deriving DecidableEq, Repr

/-- The detail query shared by the SSG and SSR `[id]` pages:
`select({id,title,content,createdAt,userId}).from(posts)
 .where(eq(posts.id, id)).limit(1)`, destructured as `const [post]`. -/
def postDetailQuery (st : DbState) (id : String) : Option PostRow :=
  (((st.posts.filter fun p => p.id == id).map selectPostRow).take 1).head?

/-- `SSGPostPage`: fetches the post by id and calls `notFound()` when the
query returns no row. -/
def ssgPostPage (st : DbState) (id : String) : PageResult :=
  match postDetailQuery st id with
  | none => .notFoundPage
  | some post => .rendered post

/-- `SSRPostPage` (src/app/ssr/posts/[id]/page.tsx): same query and same
not-found pass-through as the SSG detail page. -/
def ssrPostPage (st : DbState) (id : String) : PageResult :=
  match postDetailQuery st id with
  | none => .notFoundPage
  | some post => .rendered post

/-- The JSON body accepted by `POST /api/revalidate`:
`{ path: string, secret?: string }`, both fields possibly absent. -/
structure RevalidateBody where
  path : Option String
  secret : Option String
deriving DecidableEq, Repr

/-- The JSON response produced by the route: HTTP status plus the fields
that may appear in the body (absent fields are `none`). -/
structure ApiResponse where
  status : Nat
  revalidated : Option Bool
  path : Option String
  now : Option Nat
  message : Option String
  error : Option String
deriving DecidableEq, Repr

/-- JavaScript truthiness of the destructured `path` value: `undefined`
and the empty string are falsy. -/
def jsTruthy : Option String → Bool
  | none => false
  | some s => !s.isEmpty

/-- The `POST` handler of `app/api/revalidate/route.ts`.  The external
`revalidatePath` primitive is passed in as a fallible function; the body
parse (`request.json()`) is an `Except` since it may throw inside the
`try`.  The second component of the result records which paths the
handler asked the framework to revalidate. -/
def revalidatePOST (revalidatePathFn : String → Except String Unit)
    (body : Except String RevalidateBody) (now : Nat) :
    ApiResponse × List String :=
  match body with
  | .error e =>
      ({ status := 500, revalidated := none, path := none, now := none,
         message := some "Error revalidating", error := some e }, [])
  | .ok b =>
      match b.path with
      | none =>
          ({ status := 400, revalidated := none, path := none,
             now := none, message := some "Path is required",
             error := none }, [])
      | some p =>
          if p.isEmpty then
            ({ status := 400, revalidated := none, path := none,
               now := none, message := some "Path is required",
               error := none }, [])
          else
            match revalidatePathFn p with
            | .error e =>
                ({ status := 500, revalidated := none, path := none,
                   now := none, message := some "Error revalidating",
                   error := some e }, [p])
            | .ok _ =>
                ({ status := 200, revalidated := some true,
                   path := some p, now := some now,
                   message := some ("Successfully revalidated " ++ p),
                   error := none }, [p])

/-- Errors raised by the database for the constraints declared in the
migration `0000_powerful_sunspot.sql`. -/
inductive DbError where
  | uniqueViolation (constraintName : String)
  | foreignKeyViolation (constraintName : String)
deriving DecidableEq, Repr

/-- The insertable columns of `users` (id and timestamps are generated
by the column defaults). -/
structure NewUser where
  name : String
  email : String
  passwordHash : String
deriving DecidableEq, Repr

/-- The insertable columns of `posts`. -/
structure NewPost where
  userId : String
  title : String
  content : String
  published : Nat
deriving DecidableEq, Repr

/-- `INSERT INTO users` under the declared constraints: the
`users_email_unique` unique constraint and the `users_pkey` primary key.
`freshId` is the uuid produced by the `gen_random_uuid()` default and
`t` the timestamp produced by `now()`. -/
def insertUser (st : DbState) (freshId : String) (t : Nat)
    (nu : NewUser) : Except DbError DbState :=
  if st.users.any fun u => u.email == nu.email then
    .error (.uniqueViolation "users_email_unique")
  else if st.users.any fun u => u.id == freshId then
    .error (.uniqueViolation "users_pkey")
  else
    .ok { st with
      users := st.users ++
        [{ id := freshId, createdAt := t, updatedAt := t,
           name := nu.name, email := nu.email,
           passwordHash := nu.passwordHash }] }

/-- `INSERT INTO posts` under the declared constraints: the
`posts_user_id_users_id_fk` foreign key into `users.id` and the
`posts_pkey` primary key. -/
def insertPost (st : DbState) (freshId : String) (t : Nat)
    (np : NewPost) : Except DbError DbState :=
  if st.users.all fun u => u.id != np.userId then
    .error (.foreignKeyViolation "posts_user_id_users_id_fk")
  else if st.posts.any fun p => p.id == freshId then
    .error (.uniqueViolation "posts_pkey")
  else
    .ok { st with
      posts := st.posts ++
        [{ id := freshId, createdAt := t, updatedAt := t,
           userId := np.userId, title := np.title,
           content := np.content, published := np.published }] }

/-- `DELETE FROM users WHERE id = uid`: the foreign key has
`ON DELETE no action`, so deleting a present user that is still
referenced by a post is rejected. -/
def deleteUser (st : DbState) (uid : String) : Except DbError DbState :=
  if (st.users.any fun u => u.id == uid) &&
      (st.posts.any fun p => p.userId == uid) then
    .error (.foreignKeyViolation "posts_user_id_users_id_fk")
  else
    .ok { st with users := st.users.filter fun u => u.id != uid }

/-- `db.delete(schema.posts)`: nothing references posts, so the bulk
delete always succeeds. -/
def deleteAllPosts (st : DbState) : DbState :=
  { st with posts := [] }

/-- `db.delete(schema.users)`: rejected when some post still references
a present user. -/
def deleteAllUsers (st : DbState) : Except DbError DbState :=
  if st.posts.any fun p => st.users.any fun u => u.id == p.userId then
    .error (.foreignKeyViolation "posts_user_id_users_id_fk")
  else
    .ok { st with users := [] }

/-- The table state after an attempted post insert: on a constraint
violation the statement is rolled back and the state is unchanged. -/
def applyInsertPost (st : DbState) (freshId : String) (t : Nat)
    (np : NewPost) : DbState :=
  match insertPost st freshId t np with
  | .ok st2 => st2
  | .error _ => st

/-- The table state after an attempted user insert. -/
def applyInsertUser (st : DbState) (freshId : String) (t : Nat)
    (nu : NewUser) : DbState :=
  match insertUser st freshId t nu with
  | .ok st2 => st2
  | .error _ => st

/-- The table state after an attempted user delete. -/
def applyDeleteUser (st : DbState) (uid : String) : DbState :=
  match deleteUser st uid with
  | .ok st2 => st2
  | .error _ => st

/-- The referential-integrity invariant: every post references an
existing user. -/
def FKok (st : DbState) : Prop :=
  ∀ p ∈ st.posts, ∃ u ∈ st.users, u.id = p.userId

/-- The five literal rows of the seed script's `userData`, with the uuid
and timestamp defaults filled in positionally by the database
(`uidGen i` is the uuid generated for the i-th inserted row). -/
def seedUsers (uidGen : Nat → String) (t : Nat) : List User :=
  [{ id := uidGen 0, createdAt := t, updatedAt := t,
     name := "John Doe", email := "john@example.com",
     passwordHash := "hashed_password_123" },
   { id := uidGen 1, createdAt := t, updatedAt := t,
     name := "Jane Smith", email := "jane@example.com",
     passwordHash := "hashed_password_456" },
   { id := uidGen 2, createdAt := t, updatedAt := t,
     name := "Bob Johnson", email := "bob@example.com",
     passwordHash := "hashed_password_789" },
   { id := uidGen 3, createdAt := t, updatedAt := t,
     name := "Alice Williams", email := "alice@example.com",
     passwordHash := "hashed_password_abc" },
   { id := uidGen 4, createdAt := t, updatedAt := t,
     name := "Charlie Brown", email := "charlie@example.com",
     passwordHash := "hashed_password_def" }]

/-- The ten literal rows of the seed script's `postData`: each `userId`
is `insertedUsers[k].id`, i.e. `uidGen k`; titles, user indices and
`published` flags are the script's literals.  The content strings are
abbreviated to their opening words; no claim inspects them. -/
def seedPosts (uidGen pidGen : Nat → String) (t : Nat) : List Post :=
  [{ id := pidGen 0, createdAt := t, updatedAt := t,
     userId := uidGen 0, title := "Getting Started with Next.js",
     content := "Next.js is a powerful React framework", published := 1 },
   { id := pidGen 1, createdAt := t, updatedAt := t,
     userId := uidGen 0, title := "Understanding Drizzle ORM",
     content := "Drizzle ORM is a lightweight, TypeScript-first ORM",
     published := 1 },
   { id := pidGen 2, createdAt := t, updatedAt := t,
     userId := uidGen 1, title := "Building RESTful APIs with TypeScript",
     content := "TypeScript has become the go-to choice", published := 1 },
   { id := pidGen 3, createdAt := t, updatedAt := t,
     userId := uidGen 1, title := "Database Design Patterns",
     content := "Good database design is crucial", published := 0 },
   { id := pidGen 4, createdAt := t, updatedAt := t,
     userId := uidGen 2, title := "Frontend Performance Optimization",
     content := "Learn how to optimize your frontend applications",
     published := 1 },
   { id := pidGen 5, createdAt := t, updatedAt := t,
     userId := uidGen 2, title := "State Management in React",
     content := "Managing state effectively is key", published := 0 },
   { id := pidGen 6, createdAt := t, updatedAt := t,
     userId := uidGen 3, title := "Authentication Best Practices",
     content := "Security should always be a top priority",
     published := 1 },
   { id := pidGen 7, createdAt := t, updatedAt := t,
     userId := uidGen 3, title := "Testing Strategies for Modern Web Apps",
     content := "A comprehensive guide to testing modern web applications",
     published := 0 },
   { id := pidGen 8, createdAt := t, updatedAt := t,
     userId := uidGen 4, title := "Deploying to Production",
     content := "Preparing your application for production deployment",
     published := 1 },
   { id := pidGen 9, createdAt := t, updatedAt := t,
     userId := uidGen 4, title := "The Future of Web Development",
     content := "Web development continues to evolve rapidly",
     published := 0 }]

/-- The seed script's `main` (net effect on the tables): delete all
posts, then all users, then bulk-insert the five users and the ten
posts referencing them. -/
def runSeed (st : DbState) (uidGen pidGen : Nat → String) (t : Nat) :
    DbState :=
  let st1 : DbState := deleteAllPosts st
  let st2 : DbState := { st1 with users := [] }
  let st3 : DbState := { st2 with
    users := st2.users ++ seedUsers uidGen t }
  { st3 with posts := st3.posts ++ seedPosts uidGen pidGen t }

/-- States reachable from the empty database through the modelled
operations, the seed script included. -/
inductive Reachable : DbState → Prop where
  | empty : Reachable { users := [], posts := [] }
  | userIns (st : DbState) (f : String) (t : Nat) (nu : NewUser)
      (st2 : DbState) : Reachable st → insertUser st f t nu = .ok st2 →
      Reachable st2
  | postIns (st : DbState) (f : String) (t : Nat) (np : NewPost)
      (st2 : DbState) : Reachable st → insertPost st f t np = .ok st2 →
      Reachable st2
  | userDel (st : DbState) (uid : String) (st2 : DbState) :
      Reachable st → deleteUser st uid = .ok st2 → Reachable st2
  | postsClear (st : DbState) : Reachable st →
      Reachable (deleteAllPosts st)
  | usersClear (st : DbState) (st2 : DbState) : Reachable st →
      deleteAllUsers st = .ok st2 → Reachable st2
  | seeded (st : DbState) (ug pg : Nat → String) (t : Nat) :
      Reachable st → Reachable (runSeed st ug pg t)

/-- A concrete unpublished post, used by the witness of the implicit
detail-reachability claim. -/
def c9Post : Post :=
  { id := "p0", createdAt := 0, updatedAt := 0, userId := "u0",
    title := "t0", content := "c0", published := 0 }

/-- A concrete one-post state holding only `c9Post`. -/
def c9Db : DbState := { users := [], posts := [c9Post] }

/-- Concrete user for the C5 witness. -/
def c5User : User :=
  { id := "u-1", createdAt := 0, updatedAt := 0, name := "n",
    email := "e@x", passwordHash := "h" }

/-- Concrete one-user state for the C5 witness. -/
def c5Db : DbState := { users := [c5User], posts := [] }

/-- Concrete new post referencing the existing user, for the C5
witness. -/
def c5New : NewPost :=
  { userId := "u-1", title := "T", content := "C", published := 1 }

/-- Concrete post referencing `c5User`, for the C7 witness. -/
def c7Post : Post :=
  { id := "p-7", createdAt := 1, updatedAt := 1, userId := "u-1",
    title := "T7", content := "C7", published := 1 }

/-- Helper: the three list queries are definitionally the same
function. -/
theorem ssg_eq_isr_query : ssgPostsQuery = isrPostsQuery := rfl

theorem isr_eq_ssr_query : isrPostsQuery = ssrPostsQuery := rfl

/-- Helper: what one list query returns, as a permutation plus
sortedness fact. -/
theorem ssgPostsQuery_spec (st : DbState) :
    (ssgPostsQuery st).Perm
      ((st.posts.filter fun p => p.published == 1).map selectPostRow) ∧
    (ssgPostsQuery st).Pairwise rowCreatedAtLe := by
  constructor
  · exact (List.perm_insertionSort createdAtLe _).map selectPostRow
  · have hs := List.sorted_insertionSort createdAtLe
      (st.posts.filter fun p => p.published == 1)
    unfold ssgPostsQuery
    rw [List.pairwise_map]
    exact hs.imp (fun h => h)

/-- Claim C1: for every state of the posts table, the posts-listing query
used by the SSG, ISR, and SSR list pages returns exactly the rows with
`published = 1` (as a permutation of the filtered table, projected to the
selected columns), and returns them ordered by `createdAt` ascending. -/
theorem listing_query_published_sorted (st : DbState) :
    ((ssgPostsQuery st).Perm
        ((st.posts.filter fun p => p.published == 1).map selectPostRow) ∧
      (ssgPostsQuery st).Pairwise rowCreatedAtLe) ∧
    ((isrPostsQuery st).Perm
        ((st.posts.filter fun p => p.published == 1).map selectPostRow) ∧
      (isrPostsQuery st).Pairwise rowCreatedAtLe) ∧
    ((ssrPostsQuery st).Perm
        ((st.posts.filter fun p => p.published == 1).map selectPostRow) ∧
      (ssrPostsQuery st).Pairwise rowCreatedAtLe) := by
  refine ⟨ssgPostsQuery_spec st, ?_, ?_⟩
  · rw [← ssg_eq_isr_query]; exact ssgPostsQuery_spec st
  · rw [← isr_eq_ssr_query, ← ssg_eq_isr_query]; exact ssgPostsQuery_spec st

/-- Claim C8: the data-read functions of the SSG, ISR and SSR posts-list
pages are extensionally equal — on every database state all three return
the same sequence of rows — while their caching directives differ. -/
theorem listing_queries_extensionally_equal (st : DbState) :
    ssgPostsQuery st = isrPostsQuery st ∧
    isrPostsQuery st = ssrPostsQuery st ∧
    ssgDynamic ≠ ssrDynamic := by
  refine ⟨rfl, rfl, by decide⟩

/-- Helper: filtering by the id of a present row under primary-key
uniqueness returns exactly that row. -/
theorem filter_id_of_nodup (l : List Post) (p : Post)
    (hnd : (l.map Post.id).Nodup) (hp : p ∈ l) :
    (l.filter fun q => q.id == p.id) = [p] := by
  induction l with
  | nil => cases hp
  | cons a tl ih =>
    rw [List.map_cons, List.nodup_cons] at hnd
    rcases List.mem_cons.mp hp with rfl | hptl
    · have hnil : (tl.filter fun q => q.id == p.id) = [] := by
        rw [List.filter_eq_nil_iff]
        intro q hq hqp
        exact hnd.1 (List.mem_map.mpr ⟨q, hq, beq_iff_eq.mp hqp⟩)
      rw [List.filter_cons_of_pos (by simp), hnil]
    · have ha : ¬(a.id == p.id) = true := by
        intro hab
        exact hnd.1
          (List.mem_map.mpr ⟨p, hptl, (beq_iff_eq.mp hab).symm⟩)
      rw [List.filter_cons]
      rw [if_neg ha]
      exact ih hnd.2 hptl

/-- Claim C4: for every id string matching no row of the posts table, the
detail query returns no row and both detail pages yield the framework's
not-found outcome rather than raising an exception. -/
theorem post_detail_not_found (st : DbState) (pid : String)
    (h : ∀ p ∈ st.posts, p.id ≠ pid) :
    (st.posts.filter fun p => p.id == pid) = [] ∧
    postDetailQuery st pid = none ∧
    ssgPostPage st pid = .notFoundPage ∧
    ssrPostPage st pid = .notFoundPage := by
  have hf : (st.posts.filter fun p => p.id == pid) = [] := by
    rw [List.filter_eq_nil_iff]
    intro p hp hpe
    exact h p hp (beq_iff_eq.mp hpe)
  have hq : postDetailQuery st pid = none := by
    unfold postDetailQuery
    rw [hf]
    rfl
  refine ⟨hf, hq, ?_, ?_⟩
  · unfold ssgPostPage
    rw [hq]
  · unfold ssrPostPage
    rw [hq]

/-- Witness for C4 at a concrete one-post state and an absent id. -/
theorem post_detail_not_found_witness :
    ssgPostPage
      { users := [],
        posts := [{ id := "p1", createdAt := 1, updatedAt := 1,
                    userId := "u1", title := "t", content := "c",
                    published := 1 }] } "missing" = .notFoundPage :=
  (post_detail_not_found _ "missing" (by decide)).2.2.1

/-- Claim C9: the detail query filters only by id, not by `published`:
under primary-key uniqueness, every row of the posts table with
`published = 0` is rendered by the detail pages at its own id, while
being absent from the listing query. -/
theorem unpublished_post_reachable_by_id (st : DbState) (p : Post)
    (hnd : (st.posts.map Post.id).Nodup) (hp : p ∈ st.posts)
    (hunpub : p.published = 0) :
    ssgPostPage st p.id = .rendered (selectPostRow p) ∧
    ssrPostPage st p.id = .rendered (selectPostRow p) ∧
    selectPostRow p ∉ ssrPostsQuery st := by
  have hf := filter_id_of_nodup st.posts p hnd hp
  have hq : postDetailQuery st p.id = some (selectPostRow p) := by
    unfold postDetailQuery
    rw [hf]
    rfl
  refine ⟨by unfold ssgPostPage; rw [hq], by unfold ssrPostPage; rw [hq], ?_⟩
  intro hmem
  unfold ssrPostsQuery at hmem
  rcases List.mem_map.mp hmem with ⟨q, hq1, hq2⟩
  have hq3 : q ∈ st.posts.filter fun r => r.published == 1 :=
    (List.mem_insertionSort createdAtLe).mp hq1
  have hq34 := List.mem_filter.mp hq3
  have hq4 : q ∈ st.posts := hq34.1
  have hq5 : q.published = 1 := beq_iff_eq.mp hq34.2
  have hid : q.id = p.id := congrArg PostRow.id hq2
  have hqp : q = p := List.inj_on_of_nodup_map hnd hq4 hp hid
  rw [hqp, hunpub] at hq5
  exact absurd hq5 (by decide)

/-- Witness for C9: the concrete unpublished post is rendered by the SSR
detail page and missing from the SSR listing. -/
theorem unpublished_post_reachable_by_id_witness :
    ssrPostPage c9Db c9Post.id = .rendered (selectPostRow c9Post) ∧
    selectPostRow c9Post ∉ ssrPostsQuery c9Db :=
  ⟨(unpublished_post_reachable_by_id c9Db c9Post (by decide) (by decide)
      rfl).2.1,
   (unpublished_post_reachable_by_id c9Db c9Post (by decide) (by decide)
      rfl).2.2⟩

/-- Counterexample to C2 as stated: the body `{ "path": "" }` has its
`path` field present, yet the handler answers 400 and never reports
`revalidated: true`, even though `revalidatePath` would succeed. -/
theorem revalidate_present_path_counterexample :
    (revalidatePOST (fun _ => Except.ok ())
        (Except.ok { path := some "", secret := none }) 0).1.status = 400 ∧
    (revalidatePOST (fun _ => Except.ok ())
        (Except.ok { path := some "", secret := none }) 0).1.revalidated
      ≠ some true := by
  constructor
  · rfl
  · intro h
    cases h

/-- Claim C2 (amended): with a `path` field present and truthy
(non-empty), the handler revalidates exactly that path and returns 200
with `{ revalidated: true, path, now }` when the revalidation call
succeeds, and 500 with the stringified error when it throws; with `path`
absent or falsy it returns 400 and revalidates nothing. -/
theorem revalidate_route_spec (fn : String → Except String Unit)
    (b : RevalidateBody) (now : Nat) :
    (∀ p, b.path = some p → p.isEmpty = false →
      (fn p = Except.ok () →
        revalidatePOST fn (Except.ok b) now =
          ({ status := 200, revalidated := some true, path := some p,
             now := some now,
             message := some ("Successfully revalidated " ++ p),
             error := none }, [p])) ∧
      (∀ e, fn p = Except.error e →
        revalidatePOST fn (Except.ok b) now =
          ({ status := 500, revalidated := none, path := none,
             now := none, message := some "Error revalidating",
             error := some e }, [p]))) ∧
    (jsTruthy b.path = false →
      revalidatePOST fn (Except.ok b) now =
        ({ status := 400, revalidated := none, path := none,
           now := none, message := some "Path is required",
           error := none }, [])) := by
  constructor
  · intro p hp hne
    constructor
    · intro hok
      simp only [revalidatePOST, hp, hne, Bool.false_eq_true, if_false,
        hok]
    · intro e herr
      simp only [revalidatePOST, hp, hne, Bool.false_eq_true, if_false,
        herr]
  · intro hfalsy
    match hbp : b.path with
    | none => simp only [revalidatePOST, hbp]
    | some p =>
      rw [hbp] at hfalsy
      unfold jsTruthy at hfalsy
      simp only [Bool.not_eq_false'] at hfalsy
      simp [revalidatePOST, hbp, hfalsy]

/-- Witness for C2 at the concrete body `{ "path": "/isr/posts" }` with a
succeeding revalidation primitive. -/
theorem revalidate_route_spec_witness :
    revalidatePOST (fun _ => Except.ok ())
        (Except.ok { path := some "/isr/posts", secret := none }) 7 =
      ({ status := 200, revalidated := some true,
         path := some "/isr/posts", now := some 7,
         message := some ("Successfully revalidated " ++ "/isr/posts"),
         error := none }, ["/isr/posts"]) :=
  ((revalidate_route_spec (fun _ => Except.ok ())
      { path := some "/isr/posts", secret := none } 7).1
    "/isr/posts" rfl (by decide)).1 rfl

/-- Claim C10: the handler treats every falsy `path` as missing — a body
whose `path` is the empty string gets the same 400
`{ message: "Path is required" }` answer as a body with no `path` field,
and no path is revalidated in either case. -/
theorem revalidate_empty_path_like_missing
    (fn : String → Except String Unit) (s : Option String) (now : Nat) :
    revalidatePOST fn (Except.ok { path := some "", secret := s }) now =
      ({ status := 400, revalidated := none, path := none, now := none,
         message := some "Path is required", error := none }, []) ∧
    revalidatePOST fn (Except.ok { path := some "", secret := s }) now =
      revalidatePOST fn (Except.ok { path := none, secret := s }) now ∧
    jsTruthy (some "") = jsTruthy none := by
  refine ⟨rfl, rfl, rfl⟩

/-- Helper: a successful post insert requires a matching user. -/
theorem insertPost_ok_fk {st : DbState} {f : String} {t : Nat}
    {np : NewPost} {st2 : DbState}
    (h : insertPost st f t np = .ok st2) :
    ∃ u ∈ st.users, u.id = np.userId := by
  unfold insertPost at h
  by_cases hall : (st.users.all fun u => u.id != np.userId) = true
  · rw [if_pos hall] at h
    cases h
  · have hall2 : ¬ ∀ u ∈ st.users, (u.id != np.userId) = true := by
      simpa [List.all_eq_true] using hall
    push_neg at hall2
    rcases hall2 with ⟨u, hu, hne⟩
    refine ⟨u, hu, ?_⟩
    simpa using hne

/-- Helper: the state produced by a successful post insert. -/
theorem insertPost_ok_state {st : DbState} {f : String} {t : Nat}
    {np : NewPost} {st2 : DbState}
    (h : insertPost st f t np = .ok st2) :
    st2.users = st.users ∧
    st2.posts = st.posts ++
      [{ id := f, createdAt := t, updatedAt := t, userId := np.userId,
         title := np.title, content := np.content,
         published := np.published }] := by
  unfold insertPost at h
  by_cases h1 : (st.users.all fun u => u.id != np.userId) = true
  · rw [if_pos h1] at h
    cases h
  · rw [if_neg h1] at h
    by_cases h2 : (st.posts.any fun p => p.id == f) = true
    · rw [if_pos h2] at h
      cases h
    · rw [if_neg h2] at h
      cases h
      exact ⟨rfl, rfl⟩

/-- Helper: the state produced by a successful user insert. -/
theorem insertUser_ok_state {st : DbState} {f : String} {t : Nat}
    {nu : NewUser} {st2 : DbState}
    (h : insertUser st f t nu = .ok st2) :
    st2.users = st.users ++
      [{ id := f, createdAt := t, updatedAt := t, name := nu.name,
         email := nu.email, passwordHash := nu.passwordHash }] ∧
    st2.posts = st.posts := by
  unfold insertUser at h
  by_cases h1 : (st.users.any fun u => u.email == nu.email) = true
  · rw [if_pos h1] at h
    cases h
  · rw [if_neg h1] at h
    by_cases h2 : (st.users.any fun u => u.id == f) = true
    · rw [if_pos h2] at h
      cases h
    · rw [if_neg h2] at h
      cases h
      exact ⟨rfl, rfl⟩

/-- Helper: the state produced by a successful single-user delete. -/
theorem deleteUser_ok_state {st : DbState} {uid : String}
    {st2 : DbState} (h : deleteUser st uid = .ok st2) :
    st2.users = st.users.filter (fun u => u.id != uid) ∧
    st2.posts = st.posts ∧
    ((st.users.any fun u => u.id == uid) = false ∨
      (st.posts.any fun p => p.userId == uid) = false) := by
  unfold deleteUser at h
  by_cases h1 : ((st.users.any fun u => u.id == uid) &&
      (st.posts.any fun p => p.userId == uid)) = true
  · rw [if_pos h1] at h
    cases h
  · rw [if_neg h1] at h
    cases h
    refine ⟨rfl, rfl, ?_⟩
    rcases Bool.and_eq_true_iff.not.mp h1 with h2
    by_cases hu : (st.users.any fun u => u.id == uid) = true
    · right
      by_cases hp : (st.posts.any fun p => p.userId == uid) = true
      · exact absurd ⟨hu, hp⟩ h2
      · exact Bool.not_eq_true _ ▸ Bool.of_not_eq_true hp
    · left
      exact Bool.of_not_eq_true hu

/-- Helper: a successful bulk user delete empties `users`, keeps
`posts`, and can only happen when no post references a present user. -/
theorem deleteAllUsers_ok_state {st : DbState} {st2 : DbState}
    (h : deleteAllUsers st = .ok st2) :
    st2.users = [] ∧ st2.posts = st.posts ∧
    (st.posts.any fun p => st.users.any fun u => u.id == p.userId)
      = false := by
  unfold deleteAllUsers at h
  by_cases h1 : (st.posts.any fun p =>
      st.users.any fun u => u.id == p.userId) = true
  · rw [if_pos h1] at h
    cases h
  · rw [if_neg h1] at h
    cases h
    exact ⟨rfl, rfl, Bool.of_not_eq_true h1⟩

/-- Helper: referential integrity holds in any freshly seeded state. -/
theorem runSeed_FKok (st : DbState) (ug pg : Nat → String) (t : Nat) :
    FKok (runSeed st ug pg t) := by
  intro p hp
  have hu : (runSeed st ug pg t).users = seedUsers ug t := rfl
  have hps : (runSeed st ug pg t).posts = seedPosts ug pg t := rfl
  rw [hps] at hp
  rw [hu]
  simp only [seedPosts, List.mem_cons, List.not_mem_nil, or_false] at hp
  rcases hp with rfl | rfl | rfl | rfl | rfl | rfl | rfl | rfl | rfl | rfl
  all_goals simp [seedUsers]

/-- Helper: referential integrity holds in every reachable state. -/
theorem reachable_FKok {st : DbState} (h : Reachable st) : FKok st := by
  induction h with
  | empty => intro p hp; cases hp
  | userIns st f t nu st2 _ hins ih =>
    rcases insertUser_ok_state hins with ⟨hu, hp⟩
    intro p hmem
    rw [hp] at hmem
    rcases ih p hmem with ⟨u, hu1, hu2⟩
    exact ⟨u, by rw [hu]; exact List.mem_append_left _ hu1, hu2⟩
  | postIns st f t np st2 _ hins ih =>
    rcases insertPost_ok_state hins with ⟨hu, hp⟩
    intro p hmem
    rw [hp] at hmem
    rcases List.mem_append.mp hmem with hold | hnew
    · rcases ih p hold with ⟨u, hu1, hu2⟩
      exact ⟨u, by rw [hu]; exact hu1, hu2⟩
    · rcases insertPost_ok_fk hins with ⟨u, hu1, hu2⟩
      rcases List.mem_singleton.mp hnew with rfl
      exact ⟨u, by rw [hu]; exact hu1, hu2⟩
  | userDel st uid st2 _ hdel ih =>
    rcases deleteUser_ok_state hdel with ⟨hu, hp, hcase⟩
    intro p hmem
    rw [hp] at hmem
    rcases ih p hmem with ⟨u, hu1, hu2⟩
    refine ⟨u, ?_, hu2⟩
    rw [hu]
    rcases hcase with hnou | hnop
    · refine List.mem_filter.mpr ⟨hu1, ?_⟩
      have : u.id ≠ uid := by
        intro heq
        have : (st.users.any fun v => v.id == uid) = true :=
          List.any_eq_true.mpr ⟨u, hu1, beq_iff_eq.mpr heq⟩
        rw [hnou] at this
        cases this
      simpa using this
    · refine List.mem_filter.mpr ⟨hu1, ?_⟩
      have : u.id ≠ uid := by
        intro heq
        have : (st.posts.any fun q => q.userId == uid) = true :=
          List.any_eq_true.mpr ⟨p, hmem, beq_iff_eq.mpr (hu2 ▸ heq)⟩
        rw [hnop] at this
        cases this
      simpa using this
  | postsClear st _ ih =>
    intro p hp
    cases hp
  | usersClear st st2 _ hdel ih =>
    rcases deleteAllUsers_ok_state hdel with ⟨hu, hp, hnone⟩
    intro p hmem
    rw [hp] at hmem
    rcases ih p hmem with ⟨u, hu1, hu2⟩
    have : (st.posts.any fun q =>
        st.users.any fun v => v.id == q.userId) = true :=
      List.any_eq_true.mpr
        ⟨p, hmem, List.any_eq_true.mpr ⟨u, hu1, beq_iff_eq.mpr hu2⟩⟩
    rw [hnone] at this
    cases this
  | seeded st ug pg t _ ih =>
    exact runSeed_FKok st ug pg t

/-- Claim C5: inserting a post whose `userId` is the id of an existing
user succeeds (appending the row); inserting one whose `userId` matches
no user fails with the foreign-key violation and leaves the posts table
unchanged; and in every reachable state every `Post.userId` references
an existing user. -/
theorem insertPost_fk_spec (st : DbState) (f : String) (t : Nat)
    (np : NewPost) (hfresh : ∀ p ∈ st.posts, p.id ≠ f) :
    ((∃ u ∈ st.users, u.id = np.userId) →
      insertPost st f t np = .ok { st with
        posts := st.posts ++
          [{ id := f, createdAt := t, updatedAt := t,
             userId := np.userId, title := np.title,
             content := np.content, published := np.published }] }) ∧
    ((∀ u ∈ st.users, u.id ≠ np.userId) →
      insertPost st f t np =
        .error (.foreignKeyViolation "posts_user_id_users_id_fk") ∧
      applyInsertPost st f t np = st) ∧
    (Reachable st → FKok st) := by
  refine ⟨?_, ?_, fun h => reachable_FKok h⟩
  · rintro ⟨u, hu, hid⟩
    have h1 : ¬(st.users.all fun v => v.id != np.userId) = true := by
      intro hall
      have := List.all_eq_true.mp hall u hu
      rw [hid] at this
      simp at this
    have h2 : ¬(st.posts.any fun p => p.id == f) = true := by
      intro hany
      rcases List.any_eq_true.mp hany with ⟨p, hp, hpe⟩
      exact hfresh p hp (beq_iff_eq.mp hpe)
    unfold insertPost
    rw [if_neg h1, if_neg h2]
  · intro hnone
    have h1 : (st.users.all fun v => v.id != np.userId) = true := by
      rw [List.all_eq_true]
      intro u hu
      simpa using hnone u hu
    have herr : insertPost st f t np =
        .error (.foreignKeyViolation "posts_user_id_users_id_fk") := by
      unfold insertPost
      rw [if_pos h1]
    refine ⟨herr, ?_⟩
    unfold applyInsertPost
    rw [herr]

/-- Witness for C5: the insert referencing the present user succeeds,
the insert referencing an absent user fails with the foreign-key
violation and changes nothing. -/
theorem insertPost_fk_spec_witness :
    insertPost c5Db "p-1" 3 c5New =
      .ok { users := [c5User],
            posts := [{ id := "p-1", createdAt := 3, updatedAt := 3,
                        userId := "u-1", title := "T", content := "C",
                        published := 1 }] } ∧
    insertPost c5Db "p-1" 3 { c5New with userId := "zz" } =
      .error (.foreignKeyViolation "posts_user_id_users_id_fk") ∧
    applyInsertPost c5Db "p-1" 3 { c5New with userId := "zz" } = c5Db :=
  ⟨(insertPost_fk_spec c5Db "p-1" 3 c5New (by decide)).1
      ⟨c5User, by decide, rfl⟩,
   ((insertPost_fk_spec c5Db "p-1" 3 { c5New with userId := "zz" }
      (by decide)).2.1 (by decide)).1,
   ((insertPost_fk_spec c5Db "p-1" 3 { c5New with userId := "zz" }
      (by decide)).2.1 (by decide)).2⟩

/-- Claim C6: inserting a user whose email equals the email of an
already-present user fails with the `users_email_unique` uniqueness
violation and leaves the users table unchanged. -/
theorem insertUser_unique_email (st : DbState) (f : String) (t : Nat)
    (nu : NewUser) (h : ∃ u ∈ st.users, u.email = nu.email) :
    insertUser st f t nu =
      .error (.uniqueViolation "users_email_unique") ∧
    applyInsertUser st f t nu = st := by
  rcases h with ⟨u, hu, he⟩
  have h1 : (st.users.any fun v => v.email == nu.email) = true :=
    List.any_eq_true.mpr ⟨u, hu, beq_iff_eq.mpr he⟩
  have herr : insertUser st f t nu =
      .error (.uniqueViolation "users_email_unique") := by
    unfold insertUser
    rw [if_pos h1]
  refine ⟨herr, ?_⟩
  unfold applyInsertUser
  rw [herr]

/-- Witness for C6 at a concrete state holding a user with the same
email. -/
theorem insertUser_unique_email_witness :
    insertUser { users := [c5User], posts := [] } "u-2" 9
        { name := "other", email := "e@x", passwordHash := "h2" } =
      .error (.uniqueViolation "users_email_unique") ∧
    applyInsertUser { users := [c5User], posts := [] } "u-2" 9
        { name := "other", email := "e@x", passwordHash := "h2" } =
      { users := [c5User], posts := [] } :=
  insertUser_unique_email { users := [c5User], posts := [] } "u-2" 9
    { name := "other", email := "e@x", passwordHash := "h2" }
    ⟨c5User, by decide, rfl⟩

/-- Claim C7: deleting a user that is referenced by at least one post is
rejected at the database level (the foreign key has no ON DELETE
cascade), leaving both tables unchanged. -/
theorem deleteUser_referenced_blocked (st : DbState) (u : User)
    (hu : u ∈ st.users) (h : ∃ p ∈ st.posts, p.userId = u.id) :
    deleteUser st u.id =
      .error (.foreignKeyViolation "posts_user_id_users_id_fk") ∧
    applyDeleteUser st u.id = st := by
  rcases h with ⟨p, hp, hpe⟩
  have h1 : ((st.users.any fun v => v.id == u.id) &&
      (st.posts.any fun q => q.userId == u.id)) = true := by
    rw [Bool.and_eq_true_iff]
    exact ⟨List.any_eq_true.mpr ⟨u, hu, beq_iff_eq.mpr rfl⟩,
      List.any_eq_true.mpr ⟨p, hp, beq_iff_eq.mpr hpe⟩⟩
  have herr : deleteUser st u.id =
      .error (.foreignKeyViolation "posts_user_id_users_id_fk") := by
    unfold deleteUser
    rw [if_pos h1]
  refine ⟨herr, ?_⟩
  unfold applyDeleteUser
  rw [herr]

/-- Witness for C7: deleting the referenced concrete user is rejected
and the state stays intact. -/
theorem deleteUser_referenced_blocked_witness :
    deleteUser { users := [c5User], posts := [c7Post] } c5User.id =
      .error (.foreignKeyViolation "posts_user_id_users_id_fk") ∧
    applyDeleteUser { users := [c5User], posts := [c7Post] } c5User.id =
      { users := [c5User], posts := [c7Post] } :=
  deleteUser_referenced_blocked { users := [c5User], posts := [c7Post] }
    c5User (by decide) ⟨c7Post, by decide, rfl⟩

/-- Claim C3: running the seed from any database state first deletes all
posts, then all users (a delete order the foreign key accepts), then
inserts exactly 5 users and 10 posts; after any run — including a rerun
over previously seeded data — the users table has exactly 5 rows and the
posts table exactly 10 (the seed is an idempotent reset). -/
theorem seed_reset_spec (st : DbState) (uidGen pidGen : Nat → String)
    (t : Nat) :
    (runSeed st uidGen pidGen t).users.length = 5 ∧
    (runSeed st uidGen pidGen t).posts.length = 10 ∧
    runSeed (runSeed st uidGen pidGen t) uidGen pidGen t =
      runSeed st uidGen pidGen t ∧
    deleteAllUsers (deleteAllPosts st) =
      .ok { users := [], posts := [] } := by
  refine ⟨rfl, rfl, rfl, rfl⟩

end DataFetching
